import Mathlib

/-!
Shallow embedding of the Cybulous consent engine and orchestrator
(crates cybulous-consent and cybulous-core, file orchestration.rs).

External effects (ledger fetches, provider calls, executor invocation,
clock reads, UUID generation) are made explicit: external collaborators
become records of response functions, the current time and fresh ids
become parameters, and each operation additionally returns the list of
external interactions it performed, in order, mirroring the await points
of the source.  Machine integers (u8 ages, u64 durations) carry no
arithmetic in the modelled code paths, only comparisons, so they are
embedded as Nat; timestamps are embedded as Int with the chronological
order.
-/

namespace Cybulous

/-- Consent status, from cybulous-consent/src/lib.rs (enum ConsentStatus). -/
inductive ConsentStatus where
  | Active
  | Pending
  | Revoked
  | Expired
deriving DecidableEq, Repr

/-- Consent record, from cybulous-consent/src/lib.rs (struct ConsentRecord).
Uuid is embedded as an opaque Nat, DateTime as Int. -/
structure ConsentRecord where
  id : Nat
  user_id : String
  status : ConsentStatus
  granted_at : Int
  expires_at : Option Int
  revoked_at : Option Int
  tx_hash : String
  age_proof : String
  discipline_proof : String
deriving DecidableEq, Repr

/-- Consent errors, from cybulous-consent/src/lib.rs (enum ConsentError). -/
inductive ConsentError where
  | AgeRequirementNotMet (age : Nat)
  | DisciplineIneligible (reason : String)
  | ConsentRevoked (at_time : Int)
  | AttestationInvalid (msg : String)
  | ProviderError (msg : String)
  | BlockchainError (msg : String)
deriving DecidableEq, Repr

/-- Display rendering of ConsentError, from the thiserror attributes on the
enum in cybulous-consent/src/lib.rs. -/
def ConsentError.toString : ConsentError → String
  | .AgeRequirementNotMet age =>
      "age requirement not met: user is " ++ ToString.toString age ++
        " years old, minimum is 21"
  | .DisciplineIneligible reason => "discipline eligibility failed: " ++ reason
  | .ConsentRevoked at_time => "consent revoked at " ++ ToString.toString at_time
  | .AttestationInvalid msg => "attestation verification failed: " ++ msg
  | .ProviderError msg => "provider error: " ++ msg
  | .BlockchainError msg => "blockchain error: " ++ msg

/-- Consent attestation, from cybulous-consent (struct ConsentAttestation). -/
structure ConsentAttestation where
  user_id : String
  age : Nat
  discipline_proof : String
  timestamp : Int
deriving DecidableEq, Repr

/-- External consent provider boundary: each call is embedded as a response
function (the error side is the provider error rendered to a string, as the
engine only ever observes it through to_string). -/
structure ConsentProvider where
  verify_age : String → Except String Nat
  check_discipline : String → Except String String

/-- External ledger boundary (struct BlockchainClient): responses of the
three ledger operations the engine performs. -/
structure BlockchainClient where
  get_consent_record : String → Except String ConsentRecord
  record_consent : ConsentAttestation → Except String String
  revoke_consent : String → Except String Unit

/-- The consent engine (struct ConsentEngine). -/
structure ConsentEngine where
  provider : ConsentProvider
  blockchain_client : BlockchainClient
  min_age : Nat

/-- External interactions performed by ConsentEngine operations, in order:
the ledger fetch in verify_consent, and the proof comparison of
verify_proof_signature. -/
inductive ConsentEvent where
  | fetchRecord
  | proofCompare
deriving DecidableEq, Repr

/-- External interactions performed by request_consent, in order. -/
inductive BoundaryCall where
  | verifyAge
  | checkDiscipline
  | recordConsent
deriving DecidableEq, Repr

/-- Expiry check from ConsentEngine::verify_consent: an expiry is set and the
current time is strictly past it. -/
def hasExpired (expires_at : Option Int) (now : Int) : Bool :=
  match expires_at with
  | some t => now > t
  | none => false

/-- ConsentEngine::verify_proof_signature.  The function
cybulous_crypto::hash_data is code of this repository that is not under the
sources given here; modelled from the spec: an arbitrary deterministic hash
function `hash_data`, applied to the source's input
format!("\x7b\x7d:\x7b\x7d", tx_hash, self.min_age). -/
def ConsentEngine.verify_proof_signature (e : ConsentEngine)
    (hash_data : String → String) (proof tx_hash : String) :
    Except ConsentError Bool :=
  Except.ok (proof == hash_data (tx_hash ++ ":" ++ ToString.toString e.min_age))

/-- ConsentEngine::verify_consent.  Fetches the record from the ledger
(BlockchainError on failure), returns Ok false when status is not Active or
an expiry has passed, otherwise compares the supplied proof against the
recomputed expected proof.  The second component records the external
interactions performed. -/
def ConsentEngine.verify_consent (e : ConsentEngine)
    (hash_data : String → String) (now : Int) (user_id proof : String) :
    Except ConsentError Bool × List ConsentEvent :=
  match e.blockchain_client.get_consent_record user_id with
  | Except.error err =>
      (Except.error (ConsentError.BlockchainError err), [ConsentEvent.fetchRecord])
  | Except.ok record =>
      if record.status ≠ ConsentStatus.Active then
        (Except.ok false, [ConsentEvent.fetchRecord])
      else if hasExpired record.expires_at now then
        (Except.ok false, [ConsentEvent.fetchRecord])
      else
        (e.verify_proof_signature hash_data proof record.tx_hash,
         [ConsentEvent.fetchRecord, ConsentEvent.proofCompare])

/-- ConsentEngine::request_consent.  Age gate first (ProviderError on a
provider boundary failure, AgeRequirementNotMet below the configured
minimum), then the discipline check (whose boundary failure the source maps
to DisciplineIneligible), then the ledger append; on success builds the new
Active record.  Uuid::new_v4() and Utc::now() are the `fresh_id` and `now`
parameters.  The second component records the external interactions
performed. -/
def ConsentEngine.request_consent (e : ConsentEngine) (now : Int)
    (fresh_id : Nat) (user_id : String) :
    Except ConsentError ConsentRecord × List BoundaryCall :=
  match e.provider.verify_age user_id with
  | Except.error err =>
      (Except.error (ConsentError.ProviderError err), [BoundaryCall.verifyAge])
  | Except.ok age =>
      if age < e.min_age then
        (Except.error (ConsentError.AgeRequirementNotMet age), [BoundaryCall.verifyAge])
      else
        match e.provider.check_discipline user_id with
        | Except.error err =>
            (Except.error (ConsentError.DisciplineIneligible err),
             [BoundaryCall.verifyAge, BoundaryCall.checkDiscipline])
        | Except.ok discipline_proof =>
            match e.blockchain_client.record_consent
                { user_id := user_id, age := age,
                  discipline_proof := discipline_proof, timestamp := now } with
            | Except.error err =>
                (Except.error (ConsentError.BlockchainError err),
                 [BoundaryCall.verifyAge, BoundaryCall.checkDiscipline,
                  BoundaryCall.recordConsent])
            | Except.ok tx_hash =>
                (Except.ok
                  { id := fresh_id, user_id := user_id,
                    status := ConsentStatus.Active, granted_at := now,
                    expires_at := none, revoked_at := none, tx_hash := tx_hash,
                    age_proof := "age:" ++ ToString.toString age,
                    discipline_proof := discipline_proof },
                 [BoundaryCall.verifyAge, BoundaryCall.checkDiscipline,
                  BoundaryCall.recordConsent])

/-- ConsentEngine::revoke_consent: ledger revocation, BlockchainError on
ledger failure. -/
def ConsentEngine.revoke_consent (e : ConsentEngine) (user_id : String) :
    Except ConsentError Unit :=
  match e.blockchain_client.revoke_consent user_id with
  | Except.error err => Except.error (ConsentError.BlockchainError err)
  | Except.ok _ => Except.ok ()

/-- Execution status, from cybulous-core/src/orchestration.rs
(enum ExecutionStatus). -/
inductive ExecutionStatus where
  | Success
  | Failed
  | Timeout
  | ConsentDenied
deriving DecidableEq, Repr

/-- Tool execution context (struct ExecutionContext); the serde_json
metadata map is embedded as an association list of strings. -/
structure ExecutionContext where
  session_id : Nat
  consent_proof : String
  biophysical_hash : Option String
  metadata : List (String × String)
deriving DecidableEq, Repr

/-- Tool invocation request (struct ToolCall); the serde_json parameters
value is embedded as an opaque String. -/
structure ToolCall where
  id : Nat
  tool_name : String
  parameters : String
  user_id : String
  context : ExecutionContext
  timeout_ms : Nat
deriving DecidableEq, Repr

/-- Tool execution response (struct ToolResponse). -/
structure ToolResponse where
  call_id : Nat
  status : ExecutionStatus
  result : Option String
  error : Option String
  duration_ms : Nat
deriving DecidableEq, Repr

/-- Core error type, from cybulous-core/src/lib.rs (enum CybulousError);
the two foreign-wrapped variants carry their rendered message. -/
inductive CybulousError where
  | OrchestrationFailed (msg : String)
  | AgentPoolError (msg : String)
  | PlatformError (msg : String)
  | StateError (msg : String)
  | ConsentError (msg : String)
  | ArtifactError (msg : String)
  | NetworkError (msg : String)
  | SerializationError (msg : String)
deriving DecidableEq, Repr

/-- Display rendering of CybulousError, from the thiserror attributes in
cybulous-core/src/lib.rs. -/
def CybulousError.toString : CybulousError → String
  | .OrchestrationFailed msg => "orchestration failed: " ++ msg
  | .AgentPoolError msg => "agent pool error: " ++ msg
  | .PlatformError msg => "platform instance error: " ++ msg
  | .StateError msg => "state management error: " ++ msg
  | .ConsentError msg => "consent verification failed: " ++ msg
  | .ArtifactError msg => "artifact storage error: " ++ msg
  | .NetworkError msg => "network error: " ++ msg
  | .SerializationError msg => "serialization error: " ++ msg

/-- Outcome of racing one executor invocation against the per-call
deadline (tokio::time::timeout in execute_tool): either the executor's
execute future completes within the deadline with its Result, or the
deadline elapses first. -/
inductive ExecOutcome where
  | completes (r : Except CybulousError ToolResponse)
  | runsPastDeadline

/-- A registered tool executor (trait ToolExecutor): its observable
behaviour on a call under the deadline race. -/
structure ToolExecutor where
  execute : ToolCall → ExecOutcome

/-- The orchestrator (struct Orchestrator); the executor registry HashMap
is embedded as an association list keyed by tool name. -/
structure Orchestrator where
  executors : List (String × ToolExecutor)
  consent_engine : ConsentEngine
  max_concurrent : Nat

/-- Orchestrator::verify_consent (the private consent gate): maps the
engine's verdict into Ok on success and a CybulousError::ConsentError with
the source's two messages on Ok(false) and on an engine error. -/
def Orchestrator.verify_consent (o : Orchestrator)
    (hash_data : String → String) (now : Int) (call : ToolCall) :
    Except CybulousError Unit :=
  match (o.consent_engine.verify_consent hash_data now
      call.user_id call.context.consent_proof).1 with
  | Except.ok true => Except.ok ()
  | Except.ok false =>
      Except.error (CybulousError.ConsentError "Consent verification failed")
  | Except.error e =>
      Except.error (CybulousError.ConsentError
        ("Consent check error: " ++ e.toString))

/-- Steps of Orchestrator::execute_tool that are observable interactions:
the consent gate, the registry lookup, and the invocation of the found
executor's execute method. -/
inductive DispatchEvent where
  | consentGate
  | executorLookup
  | executorInvoke
deriving DecidableEq, Repr

/-- Orchestrator::execute_tool.  Gates on consent (the ? operator
propagates the gate's error), looks up the executor by tool name
(OrchestrationFailed naming the unknown tool when absent), then races
execute against the call's timeout: a completed Ok response is returned
with duration_ms overwritten by the elapsed wall time, a completed Err
becomes a Failed response carrying the rendered error, and an elapsed
deadline becomes a Timeout response with duration_ms = call.timeout_ms.
start.elapsed() is the `elapsed_ms` parameter.  The second component
records the dispatch steps performed. -/
def Orchestrator.execute_tool (o : Orchestrator)
    (hash_data : String → String) (now : Int) (elapsed_ms : Nat)
    (call : ToolCall) :
    Except CybulousError ToolResponse × List DispatchEvent :=
  match o.verify_consent hash_data now call with
  | Except.error e => (Except.error e, [DispatchEvent.consentGate])
  | Except.ok _ =>
      match o.executors.lookup call.tool_name with
      | none =>
          (Except.error (CybulousError.OrchestrationFailed
              ("Unknown tool: " ++ call.tool_name)),
           [DispatchEvent.consentGate, DispatchEvent.executorLookup])
      | some executor =>
          match executor.execute call with
          | ExecOutcome.completes (Except.ok response) =>
              (Except.ok { response with duration_ms := elapsed_ms },
               [DispatchEvent.consentGate, DispatchEvent.executorLookup,
                DispatchEvent.executorInvoke])
          | ExecOutcome.completes (Except.error e) =>
              (Except.ok
                { call_id := call.id, status := ExecutionStatus.Failed,
                  result := none, error := some e.toString,
                  duration_ms := elapsed_ms },
               [DispatchEvent.consentGate, DispatchEvent.executorLookup,
                DispatchEvent.executorInvoke])
          | ExecOutcome.runsPastDeadline =>
              (Except.ok
                { call_id := call.id, status := ExecutionStatus.Timeout,
                  result := none, error := some "Execution timeout",
                  duration_ms := call.timeout_ms },
               [DispatchEvent.consentGate, DispatchEvent.executorLookup,
                DispatchEvent.executorInvoke])

/-- Orchestrator::list_tools: the registered tool names. -/
def Orchestrator.list_tools (o : Orchestrator) : List String :=
  o.executors.map Prod.fst

/-! Concrete fixtures used to instantiate the theorems below. -/

/-- A concrete deterministic hash function standing in for
cybulous_crypto::hash_data in concrete evaluations. -/
def mockHash (s : String) : String := "hash:" ++ s

/-- A ledger record whose consent was revoked. -/
def revokedRecord : ConsentRecord :=
  { id := 1, user_id := "alice", status := ConsentStatus.Revoked,
    granted_at := 0, expires_at := none, revoked_at := some 5,
    tx_hash := "tx1", age_proof := "age:25",
    discipline_proof := "discipline:verified" }

/-- An Active, unexpired ledger record (mirrors the source's mock ledger
response). -/
def activeRecord : ConsentRecord :=
  { id := 2, user_id := "alice", status := ConsentStatus.Active,
    granted_at := 0, expires_at := none, revoked_at := none,
    tx_hash := "mock-tx-hash", age_proof := "age:25",
    discipline_proof := "discipline:verified" }

/-- A well-behaved provider: age 25, discipline verified. -/
def okProvider : ConsentProvider :=
  { verify_age := fun _ => Except.ok 25,
    check_discipline := fun _ => Except.ok "discipline:verified" }

/-- Engine whose ledger holds a revoked record: verify_consent yields
Ok false. -/
def deniedEngine : ConsentEngine :=
  { provider := okProvider,
    blockchain_client :=
      { get_consent_record := fun _ => Except.ok revokedRecord,
        record_consent := fun a => Except.ok ("tx-hash-" ++ a.user_id),
        revoke_consent := fun _ => Except.ok () },
    min_age := 21 }

/-- Engine whose ledger holds an Active record with tx_hash
"mock-tx-hash" and whose min_age is 21. -/
def activeEngine : ConsentEngine :=
  { provider := okProvider,
    blockchain_client :=
      { get_consent_record := fun _ => Except.ok activeRecord,
        record_consent := fun a => Except.ok ("tx-hash-" ++ a.user_id),
        revoke_consent := fun _ => Except.ok () },
    min_age := 21 }

/-- An executor answering every call with a fixed Success response. -/
def okExecutor : ToolExecutor :=
  { execute := fun c => ExecOutcome.completes (Except.ok
      { call_id := c.id, status := ExecutionStatus.Success,
        result := some "executed", error := none, duration_ms := 10 }) }

/-- A call to the tool "test-tool" whose consent proof matches the proof
activeEngine expects under mockHash. -/
def grantedCall : ToolCall :=
  { id := 7, tool_name := "test-tool", parameters := "p1",
    user_id := "alice",
    context := { session_id := 1, consent_proof := "hash:mock-tx-hash:21",
                 biophysical_hash := none, metadata := [] },
    timeout_ms := 100 }

/-- Orchestrator over deniedEngine with "test-tool" registered. -/
def deniedOrch : Orchestrator :=
  { executors := [("test-tool", okExecutor)],
    consent_engine := deniedEngine, max_concurrent := 10 }

/-!  Theorems settling the claims. -/

/-- Denial mapping of Orchestrator::verify_consent (orchestration.rs,
lines 170-185): the CybulousError produced when the engine's verdict is
not Ok(true), none when it is. -/
def consentGateError : Except ConsentError Bool → Option CybulousError
  | Except.ok true => none
  | Except.ok false =>
      some (CybulousError.ConsentError "Consent verification failed")
  | Except.error e =>
      some (CybulousError.ConsentError
        ("Consent check error: " ++ e.toString))

/-- C1, counterexample.  At a concrete orchestrator whose consent engine
returns Ok(false) (revoked ledger record), execute_tool returns a hard
Except.error — there is no ToolResponse at all, hence none with status
ConsentDenied, refuting the claim that the denial is encoded in the
response envelope. -/
theorem c1_counterexample :
    (deniedOrch.execute_tool mockHash 0 5 grantedCall).1 =
      Except.error (CybulousError.ConsentError "Consent verification failed") := by
  rfl

/-- C1 (amended): for every tool call for which the consent engine's
verify_consent returns Ok(false) or an error, execute_tool propagates the
corresponding CybulousError::ConsentError ("Consent verification failed",
resp. "Consent check error: ..." around the rendered engine error) as a
hard error to the caller, performing only the consent gate — no
ToolResponse is produced and ExecutionStatus::ConsentDenied is never
constructed. -/
theorem c1_denied_consent_hard_error (o : Orchestrator)
    (hash_data : String → String) (now : Int) (elapsed_ms : Nat)
    (call : ToolCall) (err : CybulousError)
    (h : consentGateError
        (o.consent_engine.verify_consent hash_data now
          call.user_id call.context.consent_proof).1 = some err) :
    o.execute_tool hash_data now elapsed_ms call =
      (Except.error err, [DispatchEvent.consentGate]) := by
  unfold Orchestrator.execute_tool Orchestrator.verify_consent
  unfold consentGateError at h
  cases hv : (o.consent_engine.verify_consent hash_data now
      call.user_id call.context.consent_proof).1 with
  | error e =>
      rw [hv] at h
      simp only [Option.some.injEq] at h
      simp [h]
  | ok b =>
      cases b with
      | false =>
          rw [hv] at h
          simp only [Option.some.injEq] at h
          simp [h]
      | true =>
          rw [hv] at h
          exact absurd h (by simp)

/-- C1, witness for the amended theorem at the concrete denied
orchestrator. -/
theorem c1_witness :
    consentGateError
        (deniedOrch.consent_engine.verify_consent mockHash 0
          grantedCall.user_id grantedCall.context.consent_proof).1 =
      some (CybulousError.ConsentError "Consent verification failed") ∧
    deniedOrch.execute_tool mockHash 0 5 grantedCall =
      (Except.error (CybulousError.ConsentError "Consent verification failed"),
       [DispatchEvent.consentGate]) :=
  ⟨rfl, c1_denied_consent_hard_error deniedOrch mockHash 0 5 grantedCall _ rfl⟩

/-- C2: for every tool call on which the consent check does not return
Ok(true) (it returns false or errors), execute_tool never invokes any
registered executor's execute method: the dispatch trace stops at the
consent gate. -/
theorem c2_denied_consent_no_executor_invoke (o : Orchestrator)
    (hash_data : String → String) (now : Int) (elapsed_ms : Nat)
    (call : ToolCall)
    (h : (o.consent_engine.verify_consent hash_data now
        call.user_id call.context.consent_proof).1 ≠ Except.ok true) :
    DispatchEvent.executorInvoke ∉
      (o.execute_tool hash_data now elapsed_ms call).2 := by
  unfold Orchestrator.execute_tool Orchestrator.verify_consent
  cases hv : (o.consent_engine.verify_consent hash_data now
      call.user_id call.context.consent_proof).1 with
  | error e => simp
  | ok b =>
      cases b with
      | false => simp
      | true => exact absurd hv h

/-- C2, witness at the concrete denied orchestrator. -/
theorem c2_witness :
    (deniedOrch.consent_engine.verify_consent mockHash 0
        grantedCall.user_id grantedCall.context.consent_proof).1 ≠
      Except.ok true ∧
    DispatchEvent.executorInvoke ∉
      (deniedOrch.execute_tool mockHash 0 5 grantedCall).2 :=
  ⟨fun h => Bool.noConfusion (Except.ok.inj h),
   c2_denied_consent_no_executor_invoke deniedOrch mockHash 0 5 grantedCall
     (fun h => Bool.noConfusion (Except.ok.inj h))⟩

/-- C3: when the ledger fetch succeeds, verify_consent returns Ok(false) —
not an error — whenever the record's status is not Active or a set expiry
has passed, for every supplied proof and without performing the proof
comparison; otherwise it returns Ok(true) exactly when the supplied proof
equals the deterministic hash of the record's transaction reference
combined with the configured minimum age. -/
theorem c3_verify_consent_cases (e : ConsentEngine)
    (hash_data : String → String) (now : Int) (user_id proof : String)
    (record : ConsentRecord)
    (hfetch : e.blockchain_client.get_consent_record user_id =
      Except.ok record) :
    ((record.status ≠ ConsentStatus.Active ∨
        hasExpired record.expires_at now = true) →
      (e.verify_consent hash_data now user_id proof).1 = Except.ok false ∧
      ConsentEvent.proofCompare ∉
        (e.verify_consent hash_data now user_id proof).2) ∧
    (record.status = ConsentStatus.Active →
      hasExpired record.expires_at now = false →
      ((e.verify_consent hash_data now user_id proof).1 = Except.ok true ↔
        proof =
          hash_data (record.tx_hash ++ ":" ++ ToString.toString e.min_age))) := by
  constructor
  · rintro (hst | hexp)
    · unfold ConsentEngine.verify_consent
      simp only [hfetch, if_pos hst]
      exact ⟨by trivial, by simp⟩
    · unfold ConsentEngine.verify_consent
      simp only [hfetch]
      by_cases hst : record.status = ConsentStatus.Active
      · rw [if_neg (by simp [hst]), if_pos hexp]
        exact ⟨by trivial, by simp⟩
      · rw [if_pos hst]
        exact ⟨by trivial, by simp⟩
  · intro hst hexp
    unfold ConsentEngine.verify_consent
    simp only [hfetch]
    rw [if_neg (by simp [hst]), if_neg (by simp [hexp])]
    unfold ConsentEngine.verify_proof_signature
    simp only
    constructor
    · intro h
      have hb := Except.ok.inj h
      exact eq_of_beq hb
    · intro h
      subst h
      simp

/-- C3, witness at the concrete active engine: the matching derived proof
is accepted. -/
theorem c3_witness :
    activeEngine.blockchain_client.get_consent_record "alice" =
      Except.ok activeRecord ∧
    activeRecord.status = ConsentStatus.Active ∧
    hasExpired activeRecord.expires_at 0 = false ∧
    (activeEngine.verify_consent mockHash 0 "alice"
        "hash:mock-tx-hash:21").1 = Except.ok true :=
  ⟨rfl, rfl, rfl,
   ((c3_verify_consent_cases activeEngine mockHash 0 "alice"
        "hash:mock-tx-hash:21" activeRecord rfl).2 rfl rfl).mpr rfl⟩

/-- C4: for every user whose verified age is below the configured minimum,
request_consent fails with AgeRequirementNotMet carrying that age, and
neither the provider's discipline check nor the ledger append is
performed. -/
theorem c4_age_gate (e : ConsentEngine) (now : Int) (fresh_id : Nat)
    (user_id : String) (age : Nat)
    (hage : e.provider.verify_age user_id = Except.ok age)
    (hlt : age < e.min_age) :
    (e.request_consent now fresh_id user_id).1 =
      Except.error (ConsentError.AgeRequirementNotMet age) ∧
    BoundaryCall.checkDiscipline ∉
      (e.request_consent now fresh_id user_id).2 ∧
    BoundaryCall.recordConsent ∉
      (e.request_consent now fresh_id user_id).2 := by
  unfold ConsentEngine.request_consent
  simp only [hage, if_pos hlt]
  exact ⟨by trivial, by simp, by simp⟩

/-- Provider reporting age 18 with a passing discipline check. -/
def youngEngine : ConsentEngine :=
  { provider :=
      { verify_age := fun _ => Except.ok 18,
        check_discipline := fun _ => Except.ok "discipline:verified" },
    blockchain_client :=
      { get_consent_record := fun _ => Except.ok activeRecord,
        record_consent := fun a => Except.ok ("tx-hash-" ++ a.user_id),
        revoke_consent := fun _ => Except.ok () },
    min_age := 21 }

/-- C4, witness at the concrete under-age engine. -/
theorem c4_witness :
    youngEngine.provider.verify_age "bob" = Except.ok 18 ∧
    18 < youngEngine.min_age ∧
    (youngEngine.request_consent 0 3 "bob").1 =
      Except.error (ConsentError.AgeRequirementNotMet 18) ∧
    BoundaryCall.checkDiscipline ∉ (youngEngine.request_consent 0 3 "bob").2 ∧
    BoundaryCall.recordConsent ∉ (youngEngine.request_consent 0 3 "bob").2 :=
  ⟨rfl, by decide, c4_age_gate youngEngine 0 3 "bob" 18 rfl (by decide)⟩

/-- Provider whose discipline check fails at the external boundary. -/
def downProviderEngine : ConsentEngine :=
  { provider :=
      { verify_age := fun _ => Except.ok 25,
        check_discipline := fun _ => Except.error "provider unreachable" },
    blockchain_client :=
      { get_consent_record := fun _ => Except.ok activeRecord,
        record_consent := fun a => Except.ok ("tx-hash-" ++ a.user_id),
        revoke_consent := fun _ => Except.ok () },
    min_age := 21 }

/-- C5, counterexample.  A check_discipline boundary failure surfaces as
the policy-rejection error DisciplineIneligible — not as a distinct
boundary error naming the provider — refuting the claim for the
check_discipline half. -/
theorem c5_counterexample :
    (downProviderEngine.request_consent 0 4 "alice").1 =
      Except.error (ConsentError.DisciplineIneligible "provider unreachable") := by
  rfl

/-- C5 (amended): a verify_age boundary failure is wrapped into
ProviderError naming the provider boundary, but a check_discipline
boundary failure is reported as DisciplineIneligible carrying the
provider's error message — indistinguishable from a policy rejection. -/
theorem c5_provider_failure_mapping (e : ConsentEngine) (now : Int)
    (fresh_id : Nat) (user_id msg : String) :
    (e.provider.verify_age user_id = Except.error msg →
      (e.request_consent now fresh_id user_id).1 =
        Except.error (ConsentError.ProviderError msg)) ∧
    (∀ age, e.provider.verify_age user_id = Except.ok age →
      e.min_age ≤ age →
      e.provider.check_discipline user_id = Except.error msg →
      (e.request_consent now fresh_id user_id).1 =
        Except.error (ConsentError.DisciplineIneligible msg)) := by
  constructor
  · intro h
    unfold ConsentEngine.request_consent
    simp only [h]
  · intro age hage hge hcd
    unfold ConsentEngine.request_consent
    simp only [hage, if_neg (Nat.not_lt.mpr hge), hcd]

/-- C5, witness for the amended theorem at the concrete failing
provider. -/
theorem c5_witness :
    downProviderEngine.provider.check_discipline "alice" =
      Except.error "provider unreachable" ∧
    (downProviderEngine.request_consent 0 4 "alice").1 =
      Except.error (ConsentError.DisciplineIneligible "provider unreachable") :=
  ⟨rfl,
   (c5_provider_failure_mapping downProviderEngine 0 4 "alice"
      "provider unreachable").2 25 rfl (by decide) rfl⟩

/-- C6: every successful request_consent returns a record with status
Active, revoked_at = none, no expiry, the age-proof string encoding the
verified age, and exactly the transaction reference the ledger's
record_consent returned for the submitted attestation (so it is non-empty
whenever the ledger's reference is). -/
theorem c6_grant_record_shape (e : ConsentEngine) (now : Int)
    (fresh_id : Nat) (user_id : String) (record : ConsentRecord)
    (hok : (e.request_consent now fresh_id user_id).1 = Except.ok record) :
    ∃ age discipline_proof,
      e.provider.verify_age user_id = Except.ok age ∧
      e.min_age ≤ age ∧
      e.provider.check_discipline user_id = Except.ok discipline_proof ∧
      e.blockchain_client.record_consent
          { user_id := user_id, age := age,
            discipline_proof := discipline_proof, timestamp := now } =
        Except.ok record.tx_hash ∧
      record.status = ConsentStatus.Active ∧
      record.revoked_at = none ∧
      record.expires_at = none ∧
      record.age_proof = "age:" ++ ToString.toString age ∧
      record.discipline_proof = discipline_proof ∧
      record.id = fresh_id ∧
      record.user_id = user_id := by
  unfold ConsentEngine.request_consent at hok
  cases hage : e.provider.verify_age user_id with
  | error m => simp [hage] at hok
  | ok age =>
      simp only [hage] at hok
      by_cases hlt : age < e.min_age
      · rw [if_pos hlt] at hok
        simp at hok
      · rw [if_neg hlt] at hok
        cases hcd : e.provider.check_discipline user_id with
        | error m => simp [hcd] at hok
        | ok discipline_proof =>
            simp only [hcd] at hok
            cases htx : e.blockchain_client.record_consent
                { user_id := user_id, age := age,
                  discipline_proof := discipline_proof, timestamp := now } with
            | error m => simp [htx] at hok
            | ok tx =>
                simp only [htx] at hok
                have hrec := Except.ok.inj hok
                subst hrec
                exact ⟨age, discipline_proof, rfl, Nat.le_of_not_lt hlt,
                  rfl, htx, rfl, rfl, rfl, rfl, rfl, rfl, rfl⟩

/-- The record activeEngine grants to "bob" with fresh id 9 at time 0. -/
def grantedBob : ConsentRecord :=
  { id := 9, user_id := "bob", status := ConsentStatus.Active,
    granted_at := 0, expires_at := none, revoked_at := none,
    tx_hash := "tx-hash-bob", age_proof := "age:25",
    discipline_proof := "discipline:verified" }

/-- An executor that completes within the deadline with an Ok response
whose status is Failed and whose call id is unrelated to the call: the
orchestrator passes such a response through unchanged apart from the
duration. -/
def passThroughExecutor : ToolExecutor :=
  { execute := fun _ => ExecOutcome.completes (Except.ok
      { call_id := 99, status := ExecutionStatus.Failed, result := none,
        error := none, duration_ms := 3 }) }

/-- An executor that completes within the deadline with an error. -/
def failingExecutor : ToolExecutor :=
  { execute := fun _ => ExecOutcome.completes (Except.error
      (CybulousError.OrchestrationFailed "boom")) }

/-- An executor whose execution outlives the call's deadline. -/
def slowExecutor : ToolExecutor :=
  { execute := fun _ => ExecOutcome.runsPastDeadline }

/-- Orchestrator over activeEngine with the well-behaved executor. -/
def okOrch : Orchestrator :=
  { executors := [("test-tool", okExecutor)],
    consent_engine := activeEngine, max_concurrent := 10 }

/-- Orchestrator over activeEngine with the pass-through executor. -/
def passOrch : Orchestrator :=
  { executors := [("test-tool", passThroughExecutor)],
    consent_engine := activeEngine, max_concurrent := 10 }

/-- Orchestrator over activeEngine with the failing executor. -/
def failOrch : Orchestrator :=
  { executors := [("test-tool", failingExecutor)],
    consent_engine := activeEngine, max_concurrent := 10 }

/-- Orchestrator over activeEngine with the deadline-exceeding executor. -/
def slowOrch : Orchestrator :=
  { executors := [("test-tool", slowExecutor)],
    consent_engine := activeEngine, max_concurrent := 10 }

/-- Orchestrator over activeEngine with an empty registry. -/
def emptyOrch : Orchestrator :=
  { executors := [], consent_engine := activeEngine, max_concurrent := 10 }

/-- grantedCall retargeted at an unregistered tool name. -/
def unknownCall : ToolCall :=
  { grantedCall with tool_name := "nonexistent" }

/-- C6, witness at the concrete granting engine. -/
theorem c6_witness :
    (activeEngine.request_consent 0 9 "bob").1 = Except.ok grantedBob ∧
    ∃ age discipline_proof,
      activeEngine.provider.verify_age "bob" = Except.ok age ∧
      activeEngine.min_age ≤ age ∧
      activeEngine.provider.check_discipline "bob" =
        Except.ok discipline_proof ∧
      activeEngine.blockchain_client.record_consent
          { user_id := "bob", age := age,
            discipline_proof := discipline_proof, timestamp := 0 } =
        Except.ok grantedBob.tx_hash ∧
      grantedBob.status = ConsentStatus.Active ∧
      grantedBob.revoked_at = none ∧
      grantedBob.expires_at = none ∧
      grantedBob.age_proof = "age:" ++ ToString.toString age ∧
      grantedBob.discipline_proof = discipline_proof ∧
      grantedBob.id = 9 ∧
      grantedBob.user_id = "bob" :=
  ⟨rfl, c6_grant_record_shape activeEngine 0 9 "bob" grantedBob rfl⟩

/-- C7, counterexample.  An executor completing without error within the
deadline whose Ok response has status Failed, result none, error none and
call_id 99: execute_tool returns that response with only the duration
overwritten — status is Failed, not Success, result is not populated, and
call_id 99 differs from the originating call id 7 — refuting the claim
that an error-free completion yields status Success, a populated result
and a matching call id. -/
theorem c7_counterexample :
    (passOrch.execute_tool mockHash 0 5 grantedCall).1 =
      Except.ok { call_id := 99, status := ExecutionStatus.Failed,
                  result := none, error := none, duration_ms := 5 } ∧
    grantedCall.id = 7 := by
  exact ⟨rfl, rfl⟩

/-- C7 (amended): for every tool call whose executor completes without
error within the deadline, execute_tool returns Ok of the executor's own
response with only duration_ms overwritten to the elapsed wall time —
status, result, error and call_id are passed through from the executor
unchanged (so they are Success, a populated result, and the originating
call id only when the executor set them so). -/
theorem c7_success_passthrough (o : Orchestrator)
    (hash_data : String → String) (now : Int) (elapsed_ms : Nat)
    (call : ToolCall) (ex : ToolExecutor) (response : ToolResponse)
    (hgate : o.verify_consent hash_data now call = Except.ok ())
    (hlook : o.executors.lookup call.tool_name = some ex)
    (hexec : ex.execute call = ExecOutcome.completes (Except.ok response)) :
    (o.execute_tool hash_data now elapsed_ms call).1 =
      Except.ok { response with duration_ms := elapsed_ms } := by
  unfold Orchestrator.execute_tool
  simp only [hgate, hlook, hexec]

/-- C7, witness for the amended theorem at the concrete well-behaved
executor. -/
theorem c7_witness :
    okOrch.verify_consent mockHash 0 grantedCall = Except.ok () ∧
    okOrch.executors.lookup grantedCall.tool_name = some okExecutor ∧
    okExecutor.execute grantedCall = ExecOutcome.completes (Except.ok
      { call_id := 7, status := ExecutionStatus.Success,
        result := some "executed", error := none, duration_ms := 10 }) ∧
    (okOrch.execute_tool mockHash 0 5 grantedCall).1 =
      Except.ok { call_id := 7, status := ExecutionStatus.Success,
                  result := some "executed", error := none,
                  duration_ms := 5 } :=
  ⟨rfl, rfl, rfl,
   c7_success_passthrough okOrch mockHash 0 5 grantedCall okExecutor
     { call_id := 7, status := ExecutionStatus.Success,
       result := some "executed", error := none, duration_ms := 10 }
     rfl rfl rfl⟩

/-- C8: for every tool call whose executor does not complete within the
deadline, execute_tool returns a response with status Timeout, result
none, the fixed "Execution timeout" error message, and duration_ms equal
to the call's configured timeout_ms — independent of the elapsed wall
time. -/
theorem c8_timeout_envelope (o : Orchestrator)
    (hash_data : String → String) (now : Int) (elapsed_ms : Nat)
    (call : ToolCall) (ex : ToolExecutor)
    (hgate : o.verify_consent hash_data now call = Except.ok ())
    (hlook : o.executors.lookup call.tool_name = some ex)
    (hexec : ex.execute call = ExecOutcome.runsPastDeadline) :
    (o.execute_tool hash_data now elapsed_ms call).1 =
      Except.ok { call_id := call.id, status := ExecutionStatus.Timeout,
                  result := none, error := some "Execution timeout",
                  duration_ms := call.timeout_ms } := by
  unfold Orchestrator.execute_tool
  simp only [hgate, hlook, hexec]

/-- C8, witness at the concrete deadline-exceeding executor: elapsed wall
time 5, reported duration 100 = timeout_ms. -/
theorem c8_witness :
    slowOrch.verify_consent mockHash 0 grantedCall = Except.ok () ∧
    slowOrch.executors.lookup grantedCall.tool_name = some slowExecutor ∧
    slowExecutor.execute grantedCall = ExecOutcome.runsPastDeadline ∧
    (slowOrch.execute_tool mockHash 0 5 grantedCall).1 =
      Except.ok { call_id := 7, status := ExecutionStatus.Timeout,
                  result := none, error := some "Execution timeout",
                  duration_ms := 100 } :=
  ⟨rfl, rfl, rfl,
   c8_timeout_envelope slowOrch mockHash 0 5 grantedCall slowExecutor
     rfl rfl rfl⟩

/-- C9: for every tool call whose executor completes with an error within
the deadline, execute_tool returns Ok — not a hard error — with a
response of status Failed, error populated from the executor's rendered
error, result none, and duration_ms the elapsed wall time. -/
theorem c9_executor_error_failed_envelope (o : Orchestrator)
    (hash_data : String → String) (now : Int) (elapsed_ms : Nat)
    (call : ToolCall) (ex : ToolExecutor) (err : CybulousError)
    (hgate : o.verify_consent hash_data now call = Except.ok ())
    (hlook : o.executors.lookup call.tool_name = some ex)
    (hexec : ex.execute call = ExecOutcome.completes (Except.error err)) :
    (o.execute_tool hash_data now elapsed_ms call).1 =
      Except.ok { call_id := call.id, status := ExecutionStatus.Failed,
                  result := none, error := some err.toString,
                  duration_ms := elapsed_ms } := by
  unfold Orchestrator.execute_tool
  simp only [hgate, hlook, hexec]

/-- C9, witness at the concrete failing executor. -/
theorem c9_witness :
    failOrch.verify_consent mockHash 0 grantedCall = Except.ok () ∧
    failOrch.executors.lookup grantedCall.tool_name = some failingExecutor ∧
    failingExecutor.execute grantedCall =
      ExecOutcome.completes
        (Except.error (CybulousError.OrchestrationFailed "boom")) ∧
    (failOrch.execute_tool mockHash 0 5 grantedCall).1 =
      Except.ok { call_id := 7, status := ExecutionStatus.Failed,
                  result := none,
                  error := some "orchestration failed: boom",
                  duration_ms := 5 } :=
  ⟨rfl, rfl, rfl,
   c9_executor_error_failed_envelope failOrch mockHash 0 5 grantedCall
     failingExecutor (CybulousError.OrchestrationFailed "boom")
     rfl rfl rfl⟩

/-- C10: for every tool call naming a tool with no registered executor,
after the consent gate succeeds, execute_tool fails with the hard
orchestration-level error naming the unknown tool — no ToolResponse (in
particular none with status Failed) is produced. -/
theorem c10_unknown_tool_hard_error (o : Orchestrator)
    (hash_data : String → String) (now : Int) (elapsed_ms : Nat)
    (call : ToolCall)
    (hgate : o.verify_consent hash_data now call = Except.ok ())
    (hlook : o.executors.lookup call.tool_name = none) :
    o.execute_tool hash_data now elapsed_ms call =
      (Except.error (CybulousError.OrchestrationFailed
          ("Unknown tool: " ++ call.tool_name)),
       [DispatchEvent.consentGate, DispatchEvent.executorLookup]) := by
  unfold Orchestrator.execute_tool
  simp only [hgate, hlook]

/-- C10, witness at the concrete empty registry and the call for
"nonexistent". -/
theorem c10_witness :
    emptyOrch.verify_consent mockHash 0 unknownCall = Except.ok () ∧
    emptyOrch.executors.lookup unknownCall.tool_name = none ∧
    emptyOrch.execute_tool mockHash 0 5 unknownCall =
      (Except.error (CybulousError.OrchestrationFailed
          "Unknown tool: nonexistent"),
       [DispatchEvent.consentGate, DispatchEvent.executorLookup]) :=
  ⟨rfl, rfl,
   c10_unknown_tool_hard_error emptyOrch mockHash 0 5 unknownCall rfl rfl⟩

end Cybulous
